import Mathlib

set_option linter.unusedVariables false

namespace Arro3

/-- Logical type tag of a columnar array. Modelled from the spec: a
SchemaDescriptor carries a logical type tag, child descriptors for nested
types and an optional dictionary descriptor (the `arrow_schema::DataType` the
source uses lives in an external crate). Primitive, nested (list) and
dictionary-encoded kinds are covered. -/
inductive DataType where
  | int64
  | utf8
  | listType (child : DataType)
  | dictionary (key : DataType) (value : DataType)
deriving DecidableEq

mutual

/-- Buffer descriptor backing one columnar array, the payload of an
`ArrayRef`. Modelled from the spec: length, null count, offset, ordered
sequence of raw memory regions, ordered sequence of child buffer descriptors
(children of nested arrays have lengths independent of the parent), and an
optional dictionary buffer (a list that is empty or a singleton). The
embedded data type mirrors the type tag an Arrow array value carries. -/
inductive ArrayData where
  | node (dataType : DataType) (length nullCount offset : Nat)
      (buffers : List (List Nat)) (children : ArrayDataList)
      (dictionary : ArrayDataList)
deriving DecidableEq

/-- Ordered sequence of child buffer descriptors. -/
inductive ArrayDataList where
  | nil
  | cons (head : ArrayData) (tail : ArrayDataList)
deriving DecidableEq

end

/-- The type tag the array value carries (`Array::data_type`). -/
def ArrayData.dataType : ArrayData → DataType
  | .node t _ _ _ _ _ _ => t

/-- The logical length of the array (`Array::len`). -/
def ArrayData.len : ArrayData → Nat
  | .node _ l _ _ _ _ _ => l

/-- The raw memory regions of the array. -/
def ArrayData.buffers : ArrayData → List (List Nat)
  | .node _ _ _ _ b _ _ => b

/-- The child buffer descriptors of the array. -/
def ArrayData.children : ArrayData → ArrayDataList
  | .node _ _ _ _ _ c _ => c

/-- Number of child descriptors in a sequence. -/
def ArrayDataList.len : ArrayDataList → Nat
  | .nil => 0
  | .cons _ t => t.len + 1

/-- A schema descriptor for one array: name, logical type, nullability and
metadata, mirroring `arrow_schema::Field` as used by the source. -/
structure Field where
  name : String
  dataType : DataType
  nullable : Bool
  metadata : List (String × String)
deriving DecidableEq

/-- Build a field the way `Field::new(name, data_type, nullable)` does,
with empty metadata. -/
def Field.new (name : String) (dataType : DataType) (nullable : Bool) : Field :=
  ⟨name, dataType, nullable, []⟩

/-- A Python-facing Arrow array: a wrapper around an `ArrayRef` and a
`FieldRef` (src/pyo3-arrow/src/array.rs, `PyArray`). -/
structure PyArray where
  array : ArrayData
  field : Field
deriving DecidableEq

namespace PyArray

/-- `PyArray::new`: pair an array with a field. -/
def new (array : ArrayData) (field : Field) : PyArray :=
  ⟨array, field⟩

/-- `PyArray::from_array_ref`: infer the field automatically from the
array's data type, with empty name and nullable set. -/
def from_array_ref (array : ArrayData) : PyArray :=
  new array (Field.new "" array.dataType true)

/-- `PyArray::from_array`: rebuilds the array value from its data
(`make_array(array.into_data())`, an identity on the descriptor here) and
defers to `from_array_ref`. -/
def from_array (array : ArrayData) : PyArray :=
  from_array_ref array

/-- `PyArray::into_inner`. -/
def into_inner (self : PyArray) : ArrayData × Field :=
  (self.array, self.field)

end PyArray

/-- Rendering of a data type, standing in for the external
`arrow_schema::DataType` Display implementation: a function of the type tag
alone. -/
def DataType.render : DataType → String
  | .int64 => "Int64"
  | .utf8 => "Utf8"
  | .listType c => "List(" ++ c.render ++ ")"
  | .dictionary k v => "Dictionary(" ++ k.render ++ ", " ++ v.render ++ ")"

/-- The `Display` implementation for `PyArray`: writes
`arro3.core.Array<`, then the array's data type, then `>` and a newline. -/
def PyArray.displayString (self : PyArray) : String :=
  "arro3.core.Array<" ++ self.array.dataType.render ++ ">\n"

/-- `PyArray::__repr__`: `self.to_string()`, i.e. the Display rendering. -/
def PyArray.__repr__ (self : PyArray) : String :=
  self.displayString

/-- `PyArray::__len__`: the length of the underlying array. -/
def PyArray.__len__ (self : PyArray) : Nat :=
  self.array.len

/-- `PyArray::__eq__`: structural comparison of the underlying array data
and of the field. -/
def PyArray.__eq__ (self other : PyArray) : Bool :=
  self.array == other.array && self.field == other.field

/-- The fixed protocol name tag of a schema capsule. -/
def schemaCapsuleName : String := "arrow_schema"

/-- The fixed protocol name tag of an array capsule. -/
def arrayCapsuleName : String := "arrow_array"

/-- Lifecycle state of a capsule. Modelled from the spec: Unbound (newly
created, destructor armed), Consumed (ownership transferred to an importer),
Dropped (destructor invoked, buffer freed). -/
inductive CapsuleState where
  | Unbound
  | Consumed
  | Dropped
deriving DecidableEq

/-- A schema capsule: an opaque handle carrying a name tag, a schema payload
and a lifecycle state. Modelled from the spec. -/
structure SchemaCapsule where
  nameTag : String
  payload : Field
  state : CapsuleState
deriving DecidableEq

/-- An array capsule: an opaque handle carrying a name tag, a buffer
descriptor payload and a lifecycle state. Modelled from the spec. -/
structure ArrayCapsule where
  nameTag : String
  payload : ArrayData
  state : CapsuleState
deriving DecidableEq

/-- Errors an import can fail with. Modelled from the spec. -/
inductive ImportError where
  | InvalidCapsuleTag
  | DoubleConsumptionError
  | FfiImportError
deriving DecidableEq

/-- Errors an export can fail with. Modelled from the spec. -/
inductive ExportError where
  | CastError
  | FfiExportError
deriving DecidableEq

/-- Expected number of raw buffers for a type, per the C Data Interface
layout the spec restates: validity plus values for fixed-width primitives,
validity plus offsets plus data for utf8, validity plus offsets for lists,
and a dictionary array carries the buffers of its key type. -/
def expectedBufferCount : DataType → Nat
  | .int64 => 2
  | .utf8 => 3
  | .listType _ => 2
  | .dictionary k _ => expectedBufferCount k

/-- Expected number of child descriptors for a type. -/
def expectedChildCount : DataType → Nat
  | .listType _ => 1
  | _ => 0

/-- Structural invariants checked on import. Modelled from the spec: the
declared buffer count must match the schema's expected buffer count for its
type, the child count must match for nested types, and the payload's own
type tag must agree with the schema capsule's. -/
def structurallyValid (f : Field) (a : ArrayData) : Bool :=
  a.dataType == f.dataType &&
  a.buffers.length == expectedBufferCount f.dataType &&
  a.children.len == expectedChildCount f.dataType

/-- Build the unconsumed capsule pair publishing a field and an array. -/
def mkCapsulePair (f : Field) (a : ArrayData) : SchemaCapsule × ArrayCapsule :=
  (⟨schemaCapsuleName, f, .Unbound⟩, ⟨arrayCapsuleName, a, .Unbound⟩)

/-- Modelled from the spec: `to_array_pycapsules` (the CapsuleExporter,
`crate::ffi::to_array_pycapsules`, not under src/). With no requested schema,
or a requested schema structurally identical to the native one, it publishes
the existing buffer unchanged in a fresh Unbound capsule pair. With a
different requested schema it invokes the external casting routine `cast`;
if the cast is unsupported it fails with CastError creating no capsule. -/
def to_array_pycapsules (cast : Field → ArrayData → Field → Option ArrayData)
    (f : Field) (a : ArrayData) (requestedSchema : Option Field) :
    Except ExportError (SchemaCapsule × ArrayCapsule) :=
  match requestedSchema with
  | none => .ok (mkCapsulePair f a)
  | some rs =>
    if rs = f then .ok (mkCapsulePair f a)
    else
      match cast f a rs with
      | some a2 => .ok (mkCapsulePair rs a2)
      | none => .error .CastError

/-- Result of a successful import: the reconstructed array and field, plus
the two capsules as left behind (their in-place state mutation made
explicit). -/
structure ImportResult where
  array : ArrayData
  field : Field
  schemaCapsuleOut : SchemaCapsule
  arrayCapsuleOut : ArrayCapsule
deriving DecidableEq

/-- Modelled from the spec: `import_array_pycapsules` (the CapsuleImporter,
`crate::ffi::from_python::utils::import_array_pycapsules`, not under src/).
Validates both name tags against the two fixed protocol constants, then that
both capsules are Unbound, then the structural invariants; on success it
extracts the payloads in place and both capsules transition to Consumed. -/
def import_array_pycapsules (sc : SchemaCapsule) (ac : ArrayCapsule) :
    Except ImportError ImportResult :=
  if sc.nameTag = schemaCapsuleName ∧ ac.nameTag = arrayCapsuleName then
    if sc.state = .Unbound ∧ ac.state = .Unbound then
      if structurallyValid sc.payload ac.payload then
        .ok ⟨ac.payload, sc.payload,
          { sc with state := .Consumed }, { ac with state := .Consumed }⟩
      else .error .FfiImportError
    else .error .DoubleConsumptionError
  else .error .InvalidCapsuleTag

/-- `PyArray::__arrow_c_array__`: delegates to `to_array_pycapsules` with the
handle's field and array; the external casting routine is a parameter. -/
def PyArray.__arrow_c_array__ (cast : Field → ArrayData → Field → Option ArrayData)
    (self : PyArray) (requestedSchema : Option Field) :
    Except ExportError (SchemaCapsule × ArrayCapsule) :=
  to_array_pycapsules cast self.field self.array requestedSchema

/-- `PyArray::from_arrow_pycapsule`: imports the capsule pair via
`import_array_pycapsules` and wraps the result in `Self::new`; the consumed
capsules are returned alongside to make their state change explicit. -/
def PyArray.from_arrow_pycapsule (sc : SchemaCapsule) (ac : ArrayCapsule) :
    Except ImportError (PyArray × SchemaCapsule × ArrayCapsule) :=
  match import_array_pycapsules sc ac with
  | .ok r => .ok (PyArray.new r.array r.field, r.schemaCapsuleOut, r.arrayCapsuleOut)
  | .error e => .error e

/-- Modelled from the spec: the numeric dense-buffer view provider
(`crate::interop::numpy::to_numpy::to_numpy`, not under src/), an external
collaborator producing a dense numeric view of the values region. -/
def numpy_view (a : ArrayData) : Option (List Nat) :=
  a.buffers.getLast?

/-- `PyArray::__array__`: converts the underlying array through the numpy
interop collaborator. -/
def PyArray.__array__ (self : PyArray) : Option (List Nat) :=
  numpy_view self.array

/-- `PyArray::to_numpy`: `self.__array__(py)`. -/
def PyArray.to_numpy (self : PyArray) : Option (List Nat) :=
  self.__array__

/-- Ownership bookkeeping for one exported buffer. Modelled from the spec:
which of the producer's handle, the array capsule's destructor and the
importer's handle currently owns the buffer, and how many times the buffer
has been freed. -/
structure OwnershipState where
  producerOwns : Bool
  capsuleOwns : Bool
  importerOwns : Bool
  freeCount : Nat
deriving DecidableEq

/-- A buffer starts out exclusively owned by the producer's handle. -/
def initialOwnership : OwnershipState :=
  ⟨true, false, false, 0⟩

/-- The state after a successful export: the producer relinquishes the
buffer and the array capsule's destructor takes it. -/
def OwnershipState.exportTarget (s : OwnershipState) : OwnershipState :=
  { s with producerOwns := false, capsuleOwns := true }

/-- The ownership transitions of the spec's capsule lifecycle state machine:
a successful export moves the buffer from the producer into the capsule's
destructor; a successful import moves it from the capsule to the importer's
handle; dropping an unconsumed capsule, or the importer's handle, frees the
buffer. Modelled from the spec. -/
inductive OwnershipStep : OwnershipState → OwnershipState → Prop
  | exportOk (s : OwnershipState) (h : s.producerOwns = true) :
      OwnershipStep s s.exportTarget
  | importOk (s : OwnershipState) (h : s.capsuleOwns = true) :
      OwnershipStep s { s with capsuleOwns := false, importerOwns := true }
  | dropUnconsumed (s : OwnershipState) (h : s.capsuleOwns = true) :
      OwnershipStep s { s with capsuleOwns := false, freeCount := s.freeCount + 1 }
  | dropImported (s : OwnershipState) (h : s.importerOwns = true) :
      OwnershipStep s { s with importerOwns := false, freeCount := s.freeCount + 1 }

/-- Ownership states reachable from the initial one. -/
inductive ReachableOwnership : OwnershipState → Prop
  | init : ReachableOwnership initialOwnership
  | step {s t : OwnershipState} :
      ReachableOwnership s → OwnershipStep s t → ReachableOwnership t

/-- Number of live owners of the buffer. -/
def OwnershipState.liveOwners (s : OwnershipState) : Nat :=
  (if s.producerOwns then 1 else 0) + (if s.capsuleOwns then 1 else 0) +
    (if s.importerOwns then 1 else 0)

/-- A concrete primitive int64 array of length 3 (validity and values
buffers). -/
def exInt64 : ArrayData :=
  .node .int64 3 0 0 [[7], [1, 2, 3]] .nil .nil

/-- A concrete primitive int64 array of length 0. -/
def exEmpty : ArrayData :=
  .node .int64 0 0 0 [[], []] .nil .nil

/-- A concrete nested list array of length 2 whose int64 child has the
independent length 3. -/
def exList : ArrayData :=
  .node (.listType .int64) 2 0 0 [[3], [0, 1, 3]] (.cons exInt64 .nil) .nil

/-- A concrete utf8 array serving as dictionary values. -/
def exUtf8Values : ArrayData :=
  .node .utf8 2 0 0 [[3], [0, 1, 2], [97, 98]] .nil .nil

/-- A concrete dictionary-encoded array: int64 keys of length 4 over utf8
values. -/
def exDict : ArrayData :=
  .node (.dictionary .int64 .utf8) 4 0 0 [[15], [0, 1, 0, 1]] .nil
    (.cons exUtf8Values .nil)

/-- Handle over the concrete int64 array. -/
def exInt64Handle : PyArray := PyArray.from_array_ref exInt64

/-- Handle over the concrete empty array. -/
def exEmptyHandle : PyArray := PyArray.from_array_ref exEmpty

/-- Handle over the concrete list array. -/
def exListHandle : PyArray := PyArray.from_array_ref exList

/-- Handle over the concrete dictionary-encoded array. -/
def exDictHandle : PyArray := PyArray.from_array_ref exDict

/-- A casting routine supporting no cast at all. -/
def noCast : Field → ArrayData → Field → Option ArrayData :=
  fun _ _ _ => none

/-- Importing the freshly exported capsule pair of a structurally valid
handle succeeds, hands back the very same field and buffer descriptor, and
consumes both capsules. -/
theorem import_mkCapsulePair (f : Field) (a : ArrayData)
    (hv : structurallyValid f a = true) :
    import_array_pycapsules ⟨schemaCapsuleName, f, .Unbound⟩
        ⟨arrayCapsuleName, a, .Unbound⟩ =
      .ok ⟨a, f, ⟨schemaCapsuleName, f, .Consumed⟩,
        ⟨arrayCapsuleName, a, .Consumed⟩⟩ := by
  unfold import_array_pycapsules
  rw [if_pos ⟨rfl, rfl⟩, if_pos ⟨rfl, rfl⟩, if_pos hv]

/-- Success of an import is equivalent to: both tags match the protocol
constants, both capsules are Unbound, the structural invariants hold, and
the result is the in-place extraction with both capsules Consumed. -/
theorem import_ok_iff (sc : SchemaCapsule) (ac : ArrayCapsule)
    (r : ImportResult) :
    import_array_pycapsules sc ac = .ok r ↔
      (sc.nameTag = schemaCapsuleName ∧ ac.nameTag = arrayCapsuleName) ∧
      (sc.state = .Unbound ∧ ac.state = .Unbound) ∧
      structurallyValid sc.payload ac.payload = true ∧
      r = ⟨ac.payload, sc.payload, { sc with state := .Consumed },
        { ac with state := .Consumed }⟩ := by
  unfold import_array_pycapsules
  by_cases h1 : sc.nameTag = schemaCapsuleName ∧ ac.nameTag = arrayCapsuleName
  · rw [if_pos h1]
    by_cases h2 : sc.state = .Unbound ∧ ac.state = .Unbound
    · rw [if_pos h2]
      by_cases h3 : structurallyValid sc.payload ac.payload = true
      · rw [if_pos h3]
        constructor
        · intro h
          injection h with h
          exact ⟨h1, h2, h3, h.symm⟩
        · rintro ⟨-, -, -, rfl⟩
          rfl
      · rw [if_neg h3]
        constructor
        · intro h
          cases h
        · rintro ⟨-, -, h3', -⟩
          exact absurd h3' h3
    · rw [if_neg h2]
      constructor
      · intro h
        cases h
      · rintro ⟨-, h2', -⟩
        exact absurd h2' h2
  · rw [if_neg h1]
    constructor
    · intro h
      cases h
    · rintro ⟨h1', -⟩
      exact absurd h1' h1

/-- A single ownership step preserves the accounting invariant: live owners
plus completed frees always total one. -/
theorem ownershipStep_preserves {s t : OwnershipState}
    (hst : OwnershipStep s t) (hinv : s.liveOwners + s.freeCount = 1) :
    t.liveOwners + t.freeCount = 1 := by
  obtain ⟨p, c, i, n⟩ := s
  cases hst with
  | exportOk h =>
    simp_all [OwnershipState.liveOwners, OwnershipState.exportTarget]
    cases c <;> cases i <;> simp_all <;> omega
  | importOk h =>
    simp_all [OwnershipState.liveOwners]
    cases p <;> cases i <;> simp_all <;> omega
  | dropUnconsumed h =>
    simp_all [OwnershipState.liveOwners]
    cases p <;> cases i <;> simp_all <;> omega
  | dropImported h =>
    simp_all [OwnershipState.liveOwners]
    cases p <;> cases c <;> simp_all <;> omega

/-- C1: for every structurally valid handle, importing the capsule pair
produced by exporting it with no requested schema yields a handle that
`__eq__` declares structurally equal to the original; the underlying buffer
descriptor comes back unchanged (passed through, no copy). -/
theorem c1_export_import_round_trip
    (cast : Field → ArrayData → Field → Option ArrayData) (h : PyArray)
    (hv : structurallyValid h.field h.array = true) :
    ∃ sc ac, h.__arrow_c_array__ cast none = .ok (sc, ac) ∧
      ∃ h2 sc2 ac2,
        PyArray.from_arrow_pycapsule sc ac = .ok (h2, sc2, ac2) ∧
        h2.__eq__ h = true ∧ h2.array = h.array := by
  refine ⟨⟨schemaCapsuleName, h.field, .Unbound⟩, ⟨arrayCapsuleName, h.array, .Unbound⟩,
    rfl, ⟨h.array, h.field⟩, ⟨schemaCapsuleName, h.field, .Consumed⟩,
    ⟨arrayCapsuleName, h.array, .Consumed⟩, ?_, ?_, rfl⟩
  · unfold PyArray.from_arrow_pycapsule
    rw [import_mkCapsulePair h.field h.array hv]
    rfl
  · simp [PyArray.__eq__]

/-- C1 witness: the round trip at a concrete primitive, a concrete nested
and a concrete dictionary-encoded handle. -/
theorem c1_export_import_round_trip_witness :
    (∃ sc ac, exInt64Handle.__arrow_c_array__ noCast none = .ok (sc, ac) ∧
      ∃ h2 sc2 ac2,
        PyArray.from_arrow_pycapsule sc ac = .ok (h2, sc2, ac2) ∧
        h2.__eq__ exInt64Handle = true ∧ h2.array = exInt64Handle.array) ∧
    (∃ sc ac, exListHandle.__arrow_c_array__ noCast none = .ok (sc, ac) ∧
      ∃ h2 sc2 ac2,
        PyArray.from_arrow_pycapsule sc ac = .ok (h2, sc2, ac2) ∧
        h2.__eq__ exListHandle = true ∧ h2.array = exListHandle.array) ∧
    (∃ sc ac, exDictHandle.__arrow_c_array__ noCast none = .ok (sc, ac) ∧
      ∃ h2 sc2 ac2,
        PyArray.from_arrow_pycapsule sc ac = .ok (h2, sc2, ac2) ∧
        h2.__eq__ exDictHandle = true ∧ h2.array = exDictHandle.array) :=
  ⟨c1_export_import_round_trip noCast exInt64Handle (by decide),
   c1_export_import_round_trip noCast exListHandle (by decide),
   c1_export_import_round_trip noCast exDictHandle (by decide)⟩

/-- C2: whenever either capsule's name tag differs from the corresponding
fixed protocol constant, `from_arrow_pycapsule` fails with InvalidCapsuleTag
and returns no handle, regardless of payload or state. -/
theorem c2_invalid_capsule_tag (sc : SchemaCapsule) (ac : ArrayCapsule)
    (hbad : sc.nameTag ≠ schemaCapsuleName ∨ ac.nameTag ≠ arrayCapsuleName) :
    PyArray.from_arrow_pycapsule sc ac = .error .InvalidCapsuleTag := by
  have hn : ¬ (sc.nameTag = schemaCapsuleName ∧ ac.nameTag = arrayCapsuleName) := by
    tauto
  unfold PyArray.from_arrow_pycapsule import_array_pycapsules
  rw [if_neg hn]

/-- C2 witness: a schema capsule with a wrong tag over an otherwise fully
valid payload is rejected. -/
theorem c2_invalid_capsule_tag_witness :
    PyArray.from_arrow_pycapsule ⟨"not_arrow_schema", Field.new "" .int64 true, .Unbound⟩
      ⟨arrayCapsuleName, exInt64, .Unbound⟩ = .error .InvalidCapsuleTag :=
  c2_invalid_capsule_tag _ _ (.inl (by decide))

/-- C3: with valid tags, importing a Consumed capsule fails with
DoubleConsumptionError; a successful import starts from two Unbound
capsules, leaves both Consumed, and importing them again fails with
DoubleConsumptionError — the Unbound-to-Consumed transition happens exactly
once and no second valid handle is ever produced. -/
theorem c3_double_consumption (sc : SchemaCapsule) (ac : ArrayCapsule)
    (htags : sc.nameTag = schemaCapsuleName ∧ ac.nameTag = arrayCapsuleName) :
    ((sc.state = .Consumed ∨ ac.state = .Consumed) →
      PyArray.from_arrow_pycapsule sc ac = .error .DoubleConsumptionError) ∧
    (∀ h2 sc2 ac2,
      PyArray.from_arrow_pycapsule sc ac = .ok (h2, sc2, ac2) →
      sc.state = .Unbound ∧ ac.state = .Unbound ∧
      sc2.state = .Consumed ∧ ac2.state = .Consumed ∧
      PyArray.from_arrow_pycapsule sc2 ac2 = .error .DoubleConsumptionError) := by
  constructor
  · intro hcons
    have hn : ¬ (sc.state = .Unbound ∧ ac.state = .Unbound) := by
      rcases hcons with hc | hc
      · rintro ⟨hu, -⟩
        rw [hc] at hu
        cases hu
      · rintro ⟨-, hu⟩
        rw [hc] at hu
        cases hu
    unfold PyArray.from_arrow_pycapsule import_array_pycapsules
    rw [if_pos htags, if_neg hn]
  · intro h2 sc2 ac2 hok
    unfold PyArray.from_arrow_pycapsule at hok
    cases himp : import_array_pycapsules sc ac with
    | error e =>
      rw [himp] at hok
      cases hok
    | ok r =>
      rw [himp] at hok
      injection hok with hok
      obtain ⟨-, ⟨hsU, haU⟩, hval, hr⟩ := (import_ok_iff sc ac r).mp himp
      subst hr
      simp only [Prod.mk.injEq] at hok
      obtain ⟨-, rfl, rfl⟩ := hok
      have hne : ¬ (({ sc with state := CapsuleState.Consumed } : SchemaCapsule).state
            = CapsuleState.Unbound ∧
          ({ ac with state := CapsuleState.Consumed } : ArrayCapsule).state
            = CapsuleState.Unbound) := by
        rintro ⟨hcon, -⟩
        exact CapsuleState.noConfusion hcon
      refine ⟨hsU, haU, rfl, rfl, ?_⟩
      unfold PyArray.from_arrow_pycapsule import_array_pycapsules
      rw [if_pos ⟨htags.1, htags.2⟩, if_neg hne]

/-- C3 witness: importing an already-Consumed schema capsule with valid
tags fails with DoubleConsumptionError. -/
theorem c3_double_consumption_witness :
    PyArray.from_arrow_pycapsule ⟨schemaCapsuleName, Field.new "" .int64 true, .Consumed⟩
      ⟨arrayCapsuleName, exInt64, .Unbound⟩ = .error .DoubleConsumptionError :=
  (c3_double_consumption _ _ ⟨rfl, rfl⟩).1 (Or.inl rfl)

/-- C4: every reachable ownership state has exactly one live owner or one
completed free (exclusive ownership, freed exactly once), and whenever the
producer owns the buffer a successful export is the step that moves
exclusive ownership into the array capsule's destructor, relinquishing the
producer's handle. -/
theorem c4_exclusive_ownership_transfer :
    (∀ s : OwnershipState, ReachableOwnership s →
      s.liveOwners + s.freeCount = 1) ∧
    (∀ s : OwnershipState, s.producerOwns = true →
      OwnershipStep s s.exportTarget ∧
      s.exportTarget.producerOwns = false ∧
      s.exportTarget.capsuleOwns = true) := by
  constructor
  · intro s hs
    induction hs with
    | init => decide
    | step hr hstep ih => exact ownershipStep_preserves hstep ih
  · intro s hp
    exact ⟨OwnershipStep.exportOk s hp, rfl, rfl⟩

/-- C4 witness: the invariant at the initial state, and the export step
from it. -/
theorem c4_exclusive_ownership_transfer_witness :
    (initialOwnership.liveOwners + initialOwnership.freeCount = 1) ∧
    (OwnershipStep initialOwnership initialOwnership.exportTarget ∧
      initialOwnership.exportTarget.producerOwns = false ∧
      initialOwnership.exportTarget.capsuleOwns = true) :=
  ⟨c4_exclusive_ownership_transfer.1 initialOwnership ReachableOwnership.init,
   c4_exclusive_ownership_transfer.2 initialOwnership rfl⟩

/-- C5: exporting with a requested schema for which no supported cast
exists fails with CastError and produces no capsule, and the handle —
untouched, the export being effect-free on it — still exports successfully
with no requested schema. -/
theorem c5_cast_error (cast : Field → ArrayData → Field → Option ArrayData)
    (h : PyArray) (rs : Field) (hne : rs ≠ h.field)
    (hcast : cast h.field h.array rs = none) :
    h.__arrow_c_array__ cast (some rs) = .error .CastError ∧
    h.__arrow_c_array__ cast none = .ok (mkCapsulePair h.field h.array) := by
  constructor
  · simp only [PyArray.__arrow_c_array__, to_array_pycapsules]
    rw [if_neg hne, hcast]
  · rfl

/-- C5 witness: a cast routine supporting nothing, a concrete handle and a
concrete different requested schema. -/
theorem c5_cast_error_witness :
    exInt64Handle.__arrow_c_array__ noCast (some (Field.new "x" .utf8 false))
      = .error .CastError ∧
    exInt64Handle.__arrow_c_array__ noCast none
      = .ok (mkCapsulePair exInt64Handle.field exInt64Handle.array) :=
  c5_cast_error noCast exInt64Handle (Field.new "x" .utf8 false) (by decide) rfl

/-- C6: `__eq__` returns true exactly when the two handles' buffer
descriptors are structurally (element-wise) equal and their fields are
structurally equal; no notion of identity enters. -/
theorem c6_eq_iff_structural (a b : PyArray) :
    a.__eq__ b = true ↔ (a.array = b.array ∧ a.field = b.field) := by
  simp [PyArray.__eq__]

/-- C7: the length of the handle reconstructed by importing an exported
capsule pair equals the length of the source handle. -/
theorem c7_round_trip_len
    (cast : Field → ArrayData → Field → Option ArrayData) (h : PyArray)
    (hv : structurallyValid h.field h.array = true) :
    ∃ sc ac, h.__arrow_c_array__ cast none = .ok (sc, ac) ∧
      ∃ h2 sc2 ac2,
        PyArray.from_arrow_pycapsule sc ac = .ok (h2, sc2, ac2) ∧
        h2.__len__ = h.__len__ := by
  refine ⟨⟨schemaCapsuleName, h.field, .Unbound⟩, ⟨arrayCapsuleName, h.array, .Unbound⟩,
    rfl, ⟨h.array, h.field⟩, ⟨schemaCapsuleName, h.field, .Consumed⟩,
    ⟨arrayCapsuleName, h.array, .Consumed⟩, ?_, rfl⟩
  unfold PyArray.from_arrow_pycapsule
  rw [import_mkCapsulePair h.field h.array hv]
  rfl

/-- C7 witness: length preservation at a concrete handle of length 0 and at
a concrete nested handle whose child has an independent length. -/
theorem c7_round_trip_len_witness :
    (∃ sc ac, exEmptyHandle.__arrow_c_array__ noCast none = .ok (sc, ac) ∧
      ∃ h2 sc2 ac2,
        PyArray.from_arrow_pycapsule sc ac = .ok (h2, sc2, ac2) ∧
        h2.__len__ = exEmptyHandle.__len__) ∧
    (∃ sc ac, exListHandle.__arrow_c_array__ noCast none = .ok (sc, ac) ∧
      ∃ h2 sc2 ac2,
        PyArray.from_arrow_pycapsule sc ac = .ok (h2, sc2, ac2) ∧
        h2.__len__ = exListHandle.__len__) :=
  ⟨c7_round_trip_len noCast exEmptyHandle (by decide),
   c7_round_trip_len noCast exListHandle (by decide)⟩

/-- C8: the Display rendering (and `__repr__`, which is the Display
rendering) is a function of the array's data type alone: two handles with
the same data type render identically, whatever their lengths and element
values. -/
theorem c8_display_depends_only_on_type (h1 h2 : PyArray)
    (ht : h1.array.dataType = h2.array.dataType) :
    h1.displayString = h2.displayString ∧ h1.__repr__ = h2.__repr__ := by
  constructor <;> simp [PyArray.displayString, PyArray.__repr__, ht]

/-- C8 witness: a length-3 and a length-0 int64 handle render the same. -/
theorem c8_display_depends_only_on_type_witness :
    exInt64Handle.displayString = exEmptyHandle.displayString ∧
    exInt64Handle.__repr__ = exEmptyHandle.__repr__ :=
  c8_display_depends_only_on_type exInt64Handle exEmptyHandle rfl

/-- C9: a handle built with automatic type inference (`from_array_ref` or
`from_array`) always carries a field whose name is the empty string and
whose nullable flag is set, for every input array. -/
theorem c9_inferred_field_name_nullable (a : ArrayData) :
    (PyArray.from_array_ref a).field.name = "" ∧
    (PyArray.from_array_ref a).field.nullable = true ∧
    (PyArray.from_array a).field.name = "" ∧
    (PyArray.from_array a).field.nullable = true :=
  ⟨rfl, rfl, rfl, rfl⟩

/-- C10: `to_numpy` returns exactly what `__array__` returns, for every
handle — the one delegates to the other. -/
theorem c10_to_numpy_eq_array_dunder (h : PyArray) :
    h.to_numpy = h.__array__ :=
  rfl

end Arro3
